import Mathlib

/-!
# Verification of the DPD Local SDK session manager and request pipeline

Shallow embedding of `src/lib/auth.ts` (session/token lifecycle and the
authenticated-request retry pipeline) and of the postcode validation in
`src/lib/shipment.ts`, together with theorems settling the specification
claims about them.

Conventions of the embedding:
* Machine time is modelled as `Int` milliseconds since the epoch
  (JavaScript `Date.getTime()`); durations are `Nat`/`Int` milliseconds.
* Nullable JavaScript values (`string | null`, `Date | null`, absent object
  fields) are modelled as `Option`.
* Network calls and `JSON.parse` are external primitives: each model takes
  an oracle describing the outcome of the i-th call (`Except String _` for a
  call that can throw), and `JSON.parse` results are carried alongside the
  raw body text.
* Thrown `Error` values are modelled by their message strings
  (`Except String _`).
-/

/- ============================================================ -/
/- JavaScript JSON values and the coercions the code relies on  -/
/- ============================================================ -/

/-- A parsed JSON value (result of a successful `JSON.parse`). -/
inductive JsonVal where
  | null : JsonVal
  | bool : Bool → JsonVal
  | num : Int → JsonVal
  | str : String → JsonVal
  | arr : List JsonVal → JsonVal
  | obj : List (String × JsonVal) → JsonVal
deriving Repr, BEq

/-- JavaScript truthiness of a JSON value (`null`, `false`, `0`, `""` are
falsy; arrays and objects are always truthy). -/
def truthy : JsonVal → Bool
  | .null => false
  | .bool b => b
  | .num n => n != 0
  | .str s => s != ""
  | .arr _ => true
  | .obj _ => true

/-- Optional-chaining field access `v?.k`: `none` models `undefined`
(accessing a field of a non-object, or an absent field). -/
def jsGetField (v : JsonVal) (k : String) : Option JsonVal :=
  match v with
  | .obj fs => (fs.find? (fun p => p.1 = k)).map (fun p => p.2)
  | _ => none

/-- Field access where an explicit `null` field counts as missing — models
the `??` (nullish-coalescing) treatment of `v?.k`. -/
def getNonNull (v : JsonVal) (k : String) : Option JsonVal :=
  match jsGetField v k with
  | some .null => none
  | o => o

/-- Field access where a falsy field counts as missing — models the `||`
treatment of `v?.k` (`v?.k || fallback`). -/
def getTruthyField (v : JsonVal) (k : String) : Option JsonVal :=
  match jsGetField v k with
  | some x => if truthy x then some x else none
  | none => none

/-- Computes `Object.keys(v).length` for the values the code can reach: field count
for objects (JSON.parse yields distinct keys), element count for arrays,
UTF-16 length for strings, 0 for primitives. -/
def objKeysLen : JsonVal → Nat
  | .obj fs => fs.length
  | .arr xs => xs.length
  | .str s => s.length
  | _ => 0

mutual

/-- JavaScript `String(v)` conversion as used by `new Error(v)` and template
literals. Arrays join their elements with `,` (null elements print empty);
plain objects print `[object Object]`. -/
def jsToMessage : JsonVal → String
  | .null => "null"
  | .bool true => "true"
  | .bool false => "false"
  | .num n => toString n
  | .str s => s
  | .arr xs => jsArrJoin xs
  | .obj _ => "[object Object]"
  termination_by structural v => v

/-- Models `Array.prototype.toString`: elements joined with `,`, where a `null`
element renders as the empty string. -/
def jsArrJoin : List JsonVal → String
  | [] => ""
  | [.null] => ""
  | [x] => jsToMessage x
  | .null :: rest => "," ++ jsArrJoin rest
  | x :: rest => jsToMessage x ++ "," ++ jsArrJoin rest
  termination_by structural l => l

end

mutual

/-- Models `JSON.stringify` of a parsed JSON value (string escaping elided: the
strings reaching it in this development contain no quotes or control
characters). -/
def jsonStringify : JsonVal → String
  | .null => "null"
  | .bool true => "true"
  | .bool false => "false"
  | .num n => toString n
  | .str s => "\"" ++ s ++ "\""
  | .arr xs => "[" ++ jsonStringifyElems xs ++ "]"
  | .obj fs => "\x7b" ++ jsonStringifyFields fs ++ "\x7d"
  termination_by structural v => v

/-- Comma-joined serialization of array elements. -/
def jsonStringifyElems : List JsonVal → String
  | [] => ""
  | [x] => jsonStringify x
  | x :: rest => jsonStringify x ++ "," ++ jsonStringifyElems rest
  termination_by structural l => l

/-- Comma-joined serialization of object fields. -/
def jsonStringifyFields : List (String × JsonVal) → String
  | [] => ""
  | [(k, v)] => "\"" ++ k ++ "\":" ++ jsonStringify v
  | (k, v) :: rest =>
      "\"" ++ k ++ "\":" ++ jsonStringify v ++ "," ++ jsonStringifyFields rest
  termination_by structural l => l

end

/- ============================================================ -/
/- Constants (src/config.ts `DPD_API`) and time arithmetic      -/
/- ============================================================ -/

/-- Constant `DPD_API.RETRY_ATTEMPTS` (default attempts of `authenticatedRequest`). -/
def DPD_RETRY_ATTEMPTS : Nat := 3

/-- Constant `DPD_API.RETRY_DELAY` in milliseconds. -/
def DPD_RETRY_DELAY : Nat := 1000

/-- Fixed geo-session lifetime: `90 * 60 * 1000` ms. -/
def sessionLifetimeMs : Int := 90 * 60 * 1000

/-- Twelve hours in milliseconds (`12` hours, the staleness bound). -/
def twelveHoursMs : Int := 12 * 60 * 60 * 1000

/-- Milliseconds per calendar day. -/
def msPerDay : Int := 86400000

/-- Calendar-day index of a timestamp. The code compares
`new Date(y, m, d)` values, i.e. local-midnight floors; with a fixed clock
offset this is flooring to day granularity, modelled here at offset 0. -/
def dayOf (t : Int) : Int := Int.fdiv t msPerDay

/- ============================================================ -/
/- GeoSessionManager (src/lib/auth.ts, class GeoSessionManager)  -/
/- ============================================================ -/

/-- A session as held by a `GeoSessionStorage` adapter:
`{ geoSession: string | null, expiry: Date | null }`. -/
structure StoredSession where
  geoSession : Option String
  expiry : Option Int
deriving Repr

/-- Model of `GeoSessionManager.isSessionValid(geoSession, expiry)` evaluated at clock
time `now`. Mirrors the source: falsy token or missing expiry is invalid;
`expiryDate <= now` is invalid; if the expiry falls on the current calendar
day and the session (issued `expiresAt - 90min`) is over 12 hours old, it is
invalid; otherwise valid. -/
def isSessionValid (geoSession : Option String) (expiry : Option Int)
    (now : Int) : Bool :=
  match geoSession, expiry with
  | some g, some e =>
    -- `if (!geoSession || !expiry)`: an empty-string token is falsy
    if g = "" then false
    else if e ≤ now then false
    else if dayOf e = dayOf now then
      -- hoursSinceCreation > 12, with creation = expiry - 90 minutes
      if twelveHoursMs < now - (e - sessionLifetimeMs) then false else true
    else true
  | _, _ => false

/-- Message of the error thrown when `authenticateWithRetry` exhausts its
attempts: `lastError?.message || "Unknown error"` wrapped in the fixed text. -/
def authRetryFailMsg (maxRetries : Nat) (lastErr : Option String) : String :=
  "Failed to authenticate after " ++ toString maxRetries ++ " attempts: " ++
    (match lastErr with
     | some m => if m = "" then "Unknown error" else m
     | none => "Unknown error")

/-- Loop body of `GeoSessionManager.authenticateWithRetry`. `auth i` is the
outcome of the i-th `this.authenticate()` call (1-based), `fuel` the number
of loop iterations left (`maxRetries - attempt + 1`). Returns the outcome
(token and computed expiry, or the final thrown message), the number of
authentication calls made, and the backoff delays awaited. -/
def authRetryAux (auth : Nat → Except String String) (base maxRetries : Nat)
    (now : Int) :
    Nat → Nat → Option String → Except String (String × Int) × Nat × List Nat
  | _, 0, lastErr => (.error (authRetryFailMsg maxRetries lastErr), 0, [])
  | attempt, fuel + 1, _ =>
    match auth attempt with
    | .ok g => (.ok (g, now + sessionLifetimeMs), 1, [])
    | .error e =>
      let rest := authRetryAux auth base maxRetries now (attempt + 1) fuel (some e)
      (rest.1, rest.2.1 + 1,
        if attempt < maxRetries then base * 2 ^ (attempt - 1) :: rest.2.2
        else rest.2.2)

/-- Model of `GeoSessionManager.authenticateWithRetry()`: attempts `1..maxRetries`,
delay `baseRetryDelay * 2^(attempt-1)` between consecutive attempts. -/
def authenticateWithRetry (auth : Nat → Except String String)
    (maxRetries base : Nat) (now : Int) :
    Except String (String × Int) × Nat × List Nat :=
  authRetryAux auth base maxRetries now 1 maxRetries none

/-- Observable outcome of a `GeoSessionManager.getValidGeoSession()` call. -/
structure MgrTrace where
  result : Except String String
  authCalls : Nat
  delays : List Nat
  /-- argument of the `storage.set` call, when one was made -/
  saved : Option (String × Int)
deriving Repr

/-- The re-authentication path of `getValidGeoSession` (steps 2–3), with
the catch-block wrapping of the error message
(`Failed to get valid geo session: ...`). -/
def getValidGeoSessionFresh (auth : Nat → Except String String)
    (maxRetries base : Nat) (now : Int) : MgrTrace :=
  let r := authenticateWithRetry auth maxRetries base now
  match r.1 with
  | .ok (g, e) =>
    { result := .ok g, authCalls := r.2.1, delays := r.2.2,
      saved := some (g, e) }
  | .error m =>
    { result := .error ("Failed to get valid geo session: " ++ m),
      authCalls := r.2.1, delays := r.2.2, saved := none }

/-- Model of `GeoSessionManager.getValidGeoSession()`. `stored` is what
`storage.get()` returned; `auth` is the authentication oracle. Storage
operations themselves are modelled as infallible. -/
def getValidGeoSession (stored : Option StoredSession)
    (auth : Nat → Except String String) (maxRetries base : Nat) (now : Int) :
    MgrTrace :=
  match stored with
  | some s =>
    if isSessionValid s.geoSession s.expiry now then
      { result := .ok (s.geoSession.getD ""), authCalls := 0, delays := [],
        saved := none }
    else getValidGeoSessionFresh auth maxRetries base now
  | none => getValidGeoSessionFresh auth maxRetries base now

/-- Model of `GeoSessionManager.refreshGeoSession()`: `storage.clear()` first, so the
subsequent `getValidGeoSession()` reads an empty store — whatever was stored
is never consulted. -/
def refreshGeoSession (_stored : Option StoredSession)
    (auth : Nat → Except String String) (maxRetries base : Nat) (now : Int) :
    MgrTrace :=
  getValidGeoSession none auth maxRetries base now

/- ============================================================ -/
/- Module-level token cache and getGeoSession (auth.ts 16–114)  -/
/- ============================================================ -/

/-- The module-level `tokenCache` of auth.ts. -/
structure TokenCache where
  geoSession : Option String
  expiry : Option Int
deriving Repr

/-- Observable outcome of a `getGeoSession` call. -/
structure GetGeoResult where
  result : Except String String
  cache : TokenCache
  calledAuthenticate : Bool
deriving Repr

/-- Model of `getGeoSession(credentials, forceRefresh)`. `authResult` is the outcome
of the `authenticate(credentials)` call if one is made; `authenticate`
writes the cache only on success (auth.ts lines 84–85) and leaves it
untouched when it throws. -/
def getGeoSession (cache : TokenCache) (now : Int) (forceRefresh : Bool)
    (authResult : Except String String) : GetGeoResult :=
  let cachedValid : Bool :=
    -- `tokenCache.geoSession && tokenCache.expiry && tokenCache.expiry > new Date()`
    (match cache.geoSession with
     | some g => g != ""
     | none => false) &&
    (match cache.expiry with
     | some e => decide (now < e)
     | none => false)
  if !forceRefresh && cachedValid then
    { result := .ok (cache.geoSession.getD ""), cache := cache,
      calledAuthenticate := false }
  else
    match authResult with
    | .ok g =>
      { result := .ok g,
        cache := ⟨some g, some (now + sessionLifetimeMs)⟩,
        calledAuthenticate := true }
    | .error m =>
      { result := .error m, cache := cache, calledAuthenticate := true }

/- ============================================================ -/
/- authenticatedRequest (src/lib/auth.ts lines 168–344)         -/
/- ============================================================ -/

/-- An HTTP response as seen by the pipeline. `parsedJson` is the result
`JSON.parse` would give on `raw` (`none` when parsing throws); the model
carries it as an oracle rather than implementing a parser. -/
structure Resp where
  status : Nat
  statusText : String
  raw : String
  parsedJson : Option JsonVal
deriving Repr

/-- Field `response.ok` of the Fetch API: status in the range 200–299. -/
def Resp.ok (r : Resp) : Bool := decide (200 ≤ r.status) && decide (r.status ≤ 299)

/-- Models `raw ? JSON.parse(raw) : null` (JSON branch): an empty body parses to
JavaScript `null` without calling `JSON.parse`. -/
def parseMain (r : Resp) : Option JsonVal :=
  if r.raw = "" then some .null else r.parsedJson

/-- Models `JSON.parse(raw)` (label branch): an empty body makes `JSON.parse`
throw. -/
def parseLabel (r : Resp) : Option JsonVal :=
  if r.raw = "" then none else r.parsedJson

/-- Models `headers.Accept || headers.accept` over the caller-supplied headers. -/
def acceptHeaderOf (headers : List (String × String)) : Option String :=
  match (headers.find? (fun p => p.1 = "Accept")).map (fun p => p.2) with
  | some a => if a = "" then (headers.find? (fun p => p.1 = "accept")).map (fun p => p.2) else some a
  | none => (headers.find? (fun p => p.1 = "accept")).map (fun p => p.2)

/-- The four label-format Accept values recognised by the pipeline. -/
def labelAcceptValues : List String :=
  ["text/vnd.zebra-zpl", "text/vnd.citizen-clp", "text/vnd.eltron-epl", "text/html"]

/-- Model of `isLabelRequest` (auth.ts lines 205–210). -/
def isLabelRequest (headers : List (String × String)) : Bool :=
  match acceptHeaderOf headers with
  | some a => labelAcceptValues.contains a
  | none => false

/-- Model of `hasData` (auth.ts line 288):
`data?.data && Object.keys(data.data).length > 0`. -/
def hasDataB (data : JsonVal) : Bool :=
  match jsGetField data "data" with
  | some d => truthy d && decide (0 < objKeysLen d)
  | none => false

/-- Model of `hasError` (auth.ts line 289): `data?.error` truthiness. -/
def hasErrorB (data : JsonVal) : Bool :=
  match jsGetField data "error" with
  | some e => truthy e
  | none => false

/-- Message of the terminal `Error` thrown by the JSON branch
(auth.ts lines 311–317): the nullish-coalescing chain
`errorMessage ?? errorAction ?? obj ?? JSON.stringify(error) ?? statusText`. -/
def terminalMessage (data : JsonVal) (statusText : String) : String :=
  let err := jsGetField data "error"
  match (err.bind (fun e => getNonNull e "errorMessage")).orElse
          (fun _ => (err.bind (fun e => getNonNull e "errorAction")).orElse
            (fun _ => err.bind (fun e => getNonNull e "obj"))) with
  | some v => jsToMessage v
  | none =>
    match err with
    | some e => jsonStringify e          -- JSON.stringify of a present value
    | none => "Request failed: " ++ statusText  -- JSON.stringify(undefined) is undefined

/-- Error message and code extracted from a JSON error body on the label
path (auth.ts lines 230–255). Returns `(errorMessage, errorCode)`. -/
def labelErrorInfo (errF : Option JsonVal) : String × String :=
  let defMsg := "Label generation failed"
  let defCode := "UNKNOWN"
  match errF with
  | none => (defMsg, defCode)
  | some e =>
    if !truthy e then (defMsg, defCode)      -- `if (errorObj)` guard
    else
      match e with
      | .arr xs =>
        -- error array format: use errorObj[0]
        let first := xs.head?
        let msg := match first.bind (fun f => getTruthyField f "errorMessage") with
                   | some v => jsToMessage v
                   | none => defMsg
        let code := match first.bind (fun f => getTruthyField f "errorCode") with
                    | some v => jsToMessage v
                    | none => defCode
        (msg, code)
      | _ =>
        match getTruthyField e "errorMessage" with
        | some m =>
          -- single error object format
          let code := match (getTruthyField e "errorCode").orElse
                              (fun _ => getTruthyField e "name") with
                      | some v => jsToMessage v
                      | none => defCode
          (jsToMessage m, code)
        | none =>
          match getTruthyField e "name" with
          | some n =>
            let baseMsg := jsToMessage n
            let baseCode := jsToMessage n
            -- detailed errors array, when present and non-empty
            match jsGetField e "errors" with
            | some (.arr (det :: _)) =>
              let msg := match (getTruthyField det "errorMessage").orElse
                                 (fun _ => getTruthyField det "message") with
                         | some v => jsToMessage v
                         | none => baseMsg
              let code := match getTruthyField det "errorCode" with
                          | some v => jsToMessage v
                          | none => baseCode
              (msg, code)
            | _ => (baseMsg, baseCode)
          | none => (defMsg, defCode)

/-- What `authenticatedRequest` hands back to the caller on success: either
a parsed JSON value (`return data` / `return parsed.data`) or the raw body
text (label passthrough). -/
inductive ReqResult where
  | payload : JsonVal → ReqResult
  | text : String → ReqResult
deriving Repr, BEq

/-- Classification of one loop iteration's body: a value was returned, the
401-recovery `continue` was taken, or an `Error` was thrown (and lands in
the catch block). -/
inductive AttemptOut where
  | success : ReqResult → AttemptOut
  | retryAuth : AttemptOut
  | thrown : String → AttemptOut
deriving Repr

/-- Label branch of the response handling (auth.ts lines 215–274). -/
def labelClassify (resp : Resp) : AttemptOut :=
  if !resp.ok then
    .thrown ("Label request failed: " ++ toString resp.status ++ " " ++ resp.statusText)
  else
    match parseLabel resp with
    | none => .success (.text resp.raw)   -- parse failure: valid label data
    | some parsed =>
      let errF := jsGetField parsed "error"
      let dataF := jsGetField parsed "data"
      -- `if (parsed?.error || parsed?.data === null)`
      if (match errF with | some e => truthy e | none => false) ||
         (dataF == some .null) then
        let info := labelErrorInfo errF
        .thrown ("DPD API Error " ++ info.2 ++ ": " ++ info.1)
      else
        match dataF with
        | some d => if truthy d then .success (.payload d) else .success (.text resp.raw)
        | none => .success (.text resp.raw)

/-- JSON branch of the response handling (auth.ts lines 277–327). -/
def classifyJson (retry : Bool) (retryAttempts attempt : Nat) (resp : Resp) :
    AttemptOut :=
  match parseMain resp with
  | none =>
    -- JSON.parse threw
    if !resp.ok then .thrown (if resp.raw = "" then resp.statusText else resp.raw)
    else .thrown "Invalid JSON response from DPD API"
  | some data =>
    if !resp.ok || (hasErrorB data && !hasDataB data) then
      if decide (resp.status = 401) && retry && decide (attempt < retryAttempts - 1) then
        .retryAuth
      else
        .thrown (terminalMessage data resp.statusText)
    else
      .success (.payload data)

/-- One iteration of the `authenticatedRequest` loop: the `getGeoSession`
call, the dispatch, and the response handling. A thrown session or
transport error reaches the same catch block as a classification error. -/
def runAttempt (labelReq retry : Bool) (retryAttempts attempt : Nat)
    (sess : Except String String) (disp : Except String Resp) : AttemptOut :=
  match sess with
  | .error m => .thrown m
  | .ok _ =>
    match disp with
    | .error m => .thrown m
    | .ok resp =>
      if labelReq then labelClassify resp
      else classifyJson retry retryAttempts attempt resp

/-- Observable outcome of an `authenticatedRequest` call. -/
structure PipeTrace where
  result : Except String ReqResult
  /-- number of `fetch` dispatches performed -/
  dispatches : Nat
  /-- the `forceRefresh` flag of each `getGeoSession` call, in order -/
  sessionCalls : List Bool
  /-- number of `clearGeoSession()` calls -/
  clears : Nat
  /-- delays awaited between attempts, in order -/
  delays : List Nat
deriving Repr

/-- The `for (attempt = 0; attempt < retryAttempts; attempt++)` loop of
`authenticatedRequest`. `sess i`/`disp i` are the outcomes of the i-th
`getGeoSession` call and the i-th dispatch; `fuel` is
`retryAttempts - attempt`. -/
def runFrom (labelReq retry : Bool) (retryAttempts retryDelay : Nat)
    (sess : Nat → Except String String) (disp : Nat → Except String Resp) :
    Nat → Nat → Option String → PipeTrace
  | _, 0, lastErr =>
    -- loop exhausted: `throw lastError ?? new Error("Request failed after retries")`
    { result := .error (lastErr.getD "Request failed after retries"),
      dispatches := 0, sessionCalls := [], clears := 0, delays := [] }
  | attempt, fuel + 1, lastErr =>
    let s := sess attempt
    let d1 := match s with | .ok _ => 1 | .error _ => 0
    let force := decide (0 < attempt)
    match runAttempt labelReq retry retryAttempts attempt s (disp attempt) with
    | .success r =>
      { result := .ok r, dispatches := d1, sessionCalls := [force],
        clears := 0, delays := [] }
    | .retryAuth =>
      -- `clearGeoSession(); await delay(RETRY_DELAY * (attempt + 1)); continue;`
      let rest := runFrom labelReq retry retryAttempts retryDelay sess disp
                    (attempt + 1) fuel lastErr
      { result := rest.result, dispatches := d1 + rest.dispatches,
        sessionCalls := force :: rest.sessionCalls, clears := 1 + rest.clears,
        delays := retryDelay * (attempt + 1) :: rest.delays }
    | .thrown m =>
      -- catch block: rethrow on the last attempt or when retry is off
      if !retry || decide (retryAttempts - 1 ≤ attempt) then
        { result := .error m, dispatches := d1, sessionCalls := [force],
          clears := 0, delays := [] }
      else
        let rest := runFrom labelReq retry retryAttempts retryDelay sess disp
                      (attempt + 1) fuel (some m)
        { result := rest.result, dispatches := d1 + rest.dispatches,
          sessionCalls := force :: rest.sessionCalls, clears := rest.clears,
          delays := retryDelay * (attempt + 1) :: rest.delays }

/-- Model of `authenticatedRequest(credentials, options)`: the whole retry loop,
starting at attempt 0 with no recorded error. -/
def authenticatedRequest (headers : List (String × String)) (retry : Bool)
    (retryAttempts retryDelay : Nat) (sess : Nat → Except String String)
    (disp : Nat → Except String Resp) : PipeTrace :=
  runFrom (isLabelRequest headers) retry retryAttempts retryDelay sess disp
    0 retryAttempts none

/- ============================================================ -/
/- validateAddress (src/lib/shipment.ts lines 247–264)          -/
/- ============================================================ -/

/-- JavaScript `\s` whitespace, restricted to the characters that can occur
in a postcode string (ASCII whitespace forms and NBSP). -/
def jsWhitespace (c : Char) : Bool :=
  c = ' ' || c = '\t' || c = '\n' || c = '\r' ||
  c = Char.ofNat 11 || c = Char.ofNat 12 || c = Char.ofNat 160

/-- Models `postcode.replace(/\s/g, "").toUpperCase()` (ASCII uppercasing). -/
def cleanPostcode (p : String) : String :=
  String.mk ((p.toList.filter (fun c => !jsWhitespace c)).map Char.toUpper)

/-- The `[A-Z]` character class. -/
def isUpperAZ (c : Char) : Bool := 'A' ≤ c && c ≤ 'Z'

/-- The `\d` character class. -/
def isDigit09 (c : Char) : Bool := '0' ≤ c && c ≤ '9'

/-- Full match of `\d[A-Z]{2}$`. -/
def pcTail : List Char → Bool
  | [d, a, b] => isDigit09 d && isUpperAZ a && isUpperAZ b
  | _ => false

/-- Full match of `[A-Z]?\d[A-Z]{2}$`. -/
def pcOptLetter (l : List Char) : Bool :=
  pcTail l ||
    (match l with
     | c :: rest => isUpperAZ c && pcTail rest
     | [] => false)

/-- Full match of `\d{1,2}[A-Z]?\d[A-Z]{2}$`. -/
def pcDigits : List Char → Bool
  | c :: rest =>
    isDigit09 c &&
      (pcOptLetter rest ||
        (match rest with
         | c2 :: r2 => isDigit09 c2 && pcOptLetter r2
         | [] => false))
  | [] => false

/-- Full match of the UK postcode pattern
`^[A-Z]{1,2}\d{1,2}[A-Z]?\d[A-Z]{2}$` (a disjunction over the bounded
quantifiers, equivalent to the anchored regex). -/
def ukPostcodeRegex : List Char → Bool
  | c :: rest =>
    isUpperAZ c &&
      (pcDigits rest ||
        (match rest with
         | c2 :: r2 => isUpperAZ c2 && pcDigits r2
         | [] => false))
  | [] => false

/-- The result record of `validateAddress` (all branches set a message). -/
structure ValidateAddressResult where
  valid : Bool
  serviceable : Bool
  message : String
deriving Repr, DecidableEq

/-- How far `validateAddress` gets before any network activity: either it
returns locally with a result, or it proceeds to the `postcodes.io` lookup
with the cleaned postcode. -/
inductive ValidateStep where
  | localReject : ValidateAddressResult → ValidateStep
  | networkLookup : String → ValidateStep
deriving Repr, DecidableEq

/-- The pre-network part of `validateAddress`: clean the postcode, test the
regex, and reject locally on a failed match. -/
def validateAddress (postcode : String) : ValidateStep :=
  let clean := cleanPostcode postcode
  if ukPostcodeRegex clean.toList then .networkLookup clean
  else
    .localReject { valid := false, serviceable := false,
                   message := "Invalid UK postcode format" }

/-- C10: every postcode whose cleaned form (whitespace removed, uppercased)
fails the UK postcode pattern is rejected locally with
`{ valid: false, serviceable: false, message: "Invalid UK postcode format" }`,
before any network call. -/
theorem validateAddress_invalid_format (postcode : String)
    (h : ukPostcodeRegex (cleanPostcode postcode).toList = false) :
    validateAddress postcode =
      .localReject { valid := false, serviceable := false,
                     message := "Invalid UK postcode format" } := by
  have h' : ukPostcodeRegex (cleanPostcode postcode).data = false := h
  simp [validateAddress, h']

/-- Witness for C10 at the concrete input `"12 345"`. -/
theorem validateAddress_invalid_format_witness :
    ukPostcodeRegex (cleanPostcode "12 345").toList = false ∧
    validateAddress "12 345" =
      .localReject { valid := false, serviceable := false,
                     message := "Invalid UK postcode format" } :=
  ⟨by decide, validateAddress_invalid_format "12 345" (by decide)⟩

/- ============================================================ -/
/- Session-manager lemmas                                       -/
/- ============================================================ -/

/-- Characterisation of `isSessionValid` on a present token and expiry. -/
theorem isSessionValid_some_iff (tok : String) (ee now : Int) :
    isSessionValid (some tok) (some ee) now = true ↔
      tok ≠ "" ∧ now < ee ∧
        ¬(dayOf ee = dayOf now ∧
          twelveHoursMs < now - (ee - sessionLifetimeMs)) := by
  simp only [isSessionValid]
  split_ifs with h1 h2 h3 h4 <;> simp_all

/-- The retry loop performs at least one authentication call whenever it
has fuel. -/
theorem authRetryAux_pos (auth : Nat → Except String String)
    (base m : Nat) (now : Int) (attempt fuel : Nat) (lastE : Option String)
    (h : 1 ≤ fuel) :
    1 ≤ (authRetryAux auth base m now attempt fuel lastE).2.1 := by
  obtain ⟨k, rfl⟩ : ∃ k, fuel = k + 1 := ⟨fuel - 1, by omega⟩
  simp only [authRetryAux]
  cases auth attempt <;> simp

/-- A successful outcome of the retry loop always took at least one
authentication call. -/
theorem authRetryAux_ok_pos (auth : Nat → Except String String)
    (base m : Nat) (now : Int) (attempt fuel : Nat) (lastE : Option String)
    (p : String × Int)
    (h : (authRetryAux auth base m now attempt fuel lastE).1 = .ok p) :
    1 ≤ (authRetryAux auth base m now attempt fuel lastE).2.1 := by
  cases fuel with
  | zero => simp [authRetryAux] at h
  | succ k =>
    simp only [authRetryAux]
    cases auth attempt <;> simp

/-- The fresh path makes exactly the retry loop's number of
authentication calls. -/
theorem getValidGeoSessionFresh_authCalls (auth : Nat → Except String String)
    (m base : Nat) (now : Int) :
    (getValidGeoSessionFresh auth m base now).authCalls =
      (authRetryAux auth base m now 1 m none).2.1 := by
  simp only [getValidGeoSessionFresh, authenticateWithRetry]
  rcases h : (authRetryAux auth base m now 1 m none).1 with msg | ⟨g, e⟩ <;>
    simp [h]

/-- A fresh path that returns a token made at least one authentication
call. -/
theorem getValidGeoSessionFresh_ok_pos (auth : Nat → Except String String)
    (m base : Nat) (now : Int) (tok : String)
    (h : (getValidGeoSessionFresh auth m base now).result = .ok tok) :
    1 ≤ (getValidGeoSessionFresh auth m base now).authCalls := by
  simp only [getValidGeoSessionFresh, authenticateWithRetry] at h ⊢
  rcases hr : (authRetryAux auth base m now 1 m none).1 with msg | ⟨g, e⟩
  · simp [hr] at h
  · simp [hr]
    exact authRetryAux_ok_pos auth base m now 1 m none (g, e) hr

/- ============================================================ -/
/- C1: acceptance condition of getValidGeoSession               -/
/- ============================================================ -/

/-- C1 (amended): a stored session is accepted by `getValidGeoSession`
(its token returned with zero authentication calls) iff its token is
non-null AND non-empty, `now < expiresAt`, and it is not calendar-stale
(expiry on the current calendar day with issuance `expiresAt - 90min` more
than 12 hours before `now`); a stale or hard-expired stored session
triggers re-authentication whenever `maxRetries ≥ 1`. -/
theorem getValidGeoSession_acceptance (s : StoredSession)
    (auth : Nat → Except String String) (m base : Nat) (now : Int) :
    (((getValidGeoSession (some s) auth m base now).authCalls = 0 ∧
       ∃ tok, s.geoSession = some tok ∧
         (getValidGeoSession (some s) auth m base now).result = .ok tok) ↔
      (∃ tok e, s.geoSession = some tok ∧ tok ≠ "" ∧ s.expiry = some e ∧
        now < e ∧
        ¬(dayOf e = dayOf now ∧
          twelveHoursMs < now - (e - sessionLifetimeMs)))) ∧
    (1 ≤ m → ∀ e, s.expiry = some e → now < e → dayOf e = dayOf now →
      twelveHoursMs < now - (e - sessionLifetimeMs) →
      1 ≤ (getValidGeoSession (some s) auth m base now).authCalls) ∧
    (1 ≤ m → ∀ e, s.expiry = some e → e ≤ now →
      1 ≤ (getValidGeoSession (some s) auth m base now).authCalls) := by
  by_cases hv : isSessionValid s.geoSession s.expiry now = true
  · obtain ⟨tok, e, hg, he, hne, hlt, hstale⟩ :
        ∃ tok e, s.geoSession = some tok ∧ s.expiry = some e ∧ tok ≠ "" ∧
          now < e ∧
          ¬(dayOf e = dayOf now ∧
            twelveHoursMs < now - (e - sessionLifetimeMs)) := by
      cases hg : s.geoSession with
      | none => rw [hg] at hv; simp [isSessionValid] at hv
      | some tok =>
        cases he : s.expiry with
        | none => rw [hg, he] at hv; simp [isSessionValid] at hv
        | some e =>
          rw [hg, he] at hv
          obtain ⟨h1, h2, h3⟩ := (isSessionValid_some_iff tok e now).mp hv
          exact ⟨tok, e, rfl, rfl, h1, h2, h3⟩
    have hrun : getValidGeoSession (some s) auth m base now =
        { result := .ok (s.geoSession.getD ""), authCalls := 0,
          delays := [], saved := none } := by
      simp [getValidGeoSession, hv]
    refine ⟨⟨fun _ => ⟨tok, e, hg, hne, he, hlt, hstale⟩, fun _ => ?_⟩,
      fun _ e' he' _ hday hst => absurd ?_ hstale,
      fun _ e' he' hle => absurd hlt ?_⟩
    · refine ⟨by simp [hrun], tok, hg, ?_⟩
      simp [hrun, hg]
    · rw [he'] at he; injection he with hee
      exact ⟨hee ▸ hday, hee ▸ hst⟩
    · rw [he'] at he; injection he with hee
      omega
  · have hv' : isSessionValid s.geoSession s.expiry now = false :=
      Bool.eq_false_iff.mpr hv
    have hrun : getValidGeoSession (some s) auth m base now =
        getValidGeoSessionFresh auth m base now := by
      simp [getValidGeoSession, hv']
    refine ⟨⟨?_, ?_⟩, ?_, ?_⟩
    · rintro ⟨hcalls, tok, hg, hres⟩
      exfalso
      rw [hrun] at hcalls hres
      have := getValidGeoSessionFresh_ok_pos auth m base now tok hres
      omega
    · rintro ⟨tok, e, hg, hne, he, hlt, hstale⟩
      exfalso
      apply hv
      rw [hg, he]
      exact (isSessionValid_some_iff tok e now).mpr ⟨hne, hlt, hstale⟩
    · intro hm e he _ _ _
      rw [hrun, getValidGeoSessionFresh_authCalls]
      exact authRetryAux_pos auth base m now 1 m none hm
    · intro hm e he _
      rw [hrun, getValidGeoSessionFresh_authCalls]
      exact authRetryAux_pos auth base m now 1 m none hm

/-- C1 counterexample to the claim as stated: a stored session whose token
is non-null (`some ""`) with a future, non-stale expiry. The claim requires
acceptance, but the code treats the empty-string token as falsy and
re-authenticates. -/
theorem getValidGeoSession_acceptance_counterexample :
    ((0 : Int) < 2 * msPerDay ∧ dayOf (2 * msPerDay) ≠ dayOf 0) ∧
    (getValidGeoSession (some ⟨some "", some (2 * msPerDay)⟩)
        (fun _ => .ok "fresh") 3 2000 0).authCalls = 1 ∧
    (getValidGeoSession (some ⟨some "", some (2 * msPerDay)⟩)
        (fun _ => .ok "fresh") 3 2000 0).result = .ok "fresh" :=
  ⟨⟨by decide, by decide⟩, rfl, rfl⟩

/-- Witness for C1 at concrete inputs: a valid stored session is returned
with zero authentication calls, and a hard-expired one triggers
re-authentication. -/
theorem getValidGeoSession_acceptance_witness :
    (getValidGeoSession (some ⟨some "tok", some (2 * msPerDay)⟩)
        (fun _ => .error "x") 3 2000 0).authCalls = 0 ∧
    (getValidGeoSession (some ⟨some "tok", some (2 * msPerDay)⟩)
        (fun _ => .error "x") 3 2000 0).result = .ok "tok" ∧
    1 ≤ (getValidGeoSession (some ⟨some "tok", some 0⟩)
        (fun _ => .error "x") 3 2000 5).authCalls := by
  have h := getValidGeoSession_acceptance ⟨some "tok", some (2 * msPerDay)⟩
    (fun _ => .error "x") 3 2000 0
  have h2 := getValidGeoSession_acceptance ⟨some "tok", some 0⟩
    (fun _ => .error "x") 3 2000 5
  have hacc := h.1.mpr ⟨"tok", 2 * msPerDay, rfl, by decide, rfl, by decide,
    by decide⟩
  refine ⟨hacc.1, ?_, h2.2.2 (by decide) 0 rfl (by decide)⟩
  obtain ⟨tok, hg, hres⟩ := hacc.2
  injection hg with hg'
  exact hg' ▸ hres


/- ============================================================ -/
/- C2: retry bound and backoff of authenticateWithRetry         -/
/- ============================================================ -/

/-- The head of the exponential backoff sequence folded into a shifted
range map. -/
theorem backoff_range_shift (base a k : Nat) (ha : 1 ≤ a) :
    base * 2 ^ (a - 1) ::
        (List.range k).map (fun i => base * 2 ^ (a + 1 - 1 + i)) =
      (List.range (k + 1)).map (fun i => base * 2 ^ (a - 1 + i)) := by
  rw [List.range_succ_eq_map, List.map_cons, List.map_map]
  refine congrArg₂ List.cons ?_ ?_
  · norm_num
  · refine congrArg (fun f => List.map f (List.range k)) ?_
    funext i
    simp only [Function.comp]
    have he : a + 1 - 1 + i = a - 1 + (i + 1) := by omega
    rw [he]

/-- With an always-failing authenticator, the retry loop starting at
attempt `a` with `k + 1` iterations left fails with the final wrapped
message, makes `k + 1` calls, and waits `base * 2^(attempt-1)` between
consecutive attempts. -/
theorem authRetryAux_allFail (auth : Nat → Except String String)
    (f : Nat → String) (base m : Nat) (now : Int)
    (hfail : ∀ i, auth i = .error (f i)) :
    ∀ (k a : Nat) (lastE : Option String), 1 ≤ a → a + k = m →
      authRetryAux auth base m now a (k + 1) lastE =
        (.error (authRetryFailMsg m (some (f m))), k + 1,
          (List.range k).map (fun i => base * 2 ^ (a - 1 + i))) := by
  intro k
  induction k with
  | zero =>
    intro a lastE ha ham
    have ham' : a = m := by omega
    subst ham'
    simp [authRetryAux, hfail, Nat.lt_irrefl]
  | succ k ih =>
    intro a lastE ha ham
    have hlt : a < m := by omega
    have ih' := ih (a + 1) (some (f a)) (by omega) (by omega)
    simp only [authRetryAux, hfail] at ih' ⊢
    have h1 := congrArg Prod.fst ih'
    have h2 := congrArg (fun p => p.2.1) ih'
    have h3 := congrArg (fun p => p.2.2) ih'
    simp only at h1 h2 h3
    rw [h1, h3]
    have h2' := Nat.add_right_cancel h2
    rw [h2']
    rw [if_pos hlt]
    exact congrArg (fun l => (Except.error (authRetryFailMsg m (some (f m))),
      k + 1 + 1, l)) (backoff_range_shift base a k ha)

/-- C2: with an authenticator failing on every call, `authenticateWithRetry`
makes exactly `maxRetries` authentication attempts, waits
`baseRetryDelay * 2^(attempt-1)` between consecutive attempts, and throws
an error wrapping the last underlying error's message. -/
theorem authenticateWithRetry_exhausts (auth : Nat → Except String String)
    (f : Nat → String) (m base : Nat) (now : Int)
    (hm : 1 ≤ m) (hfail : ∀ i, auth i = .error (f i)) (hlast : f m ≠ "") :
    authenticateWithRetry auth m base now =
      (.error ("Failed to authenticate after " ++ toString m ++
          " attempts: " ++ f m), m,
        (List.range (m - 1)).map (fun i => base * 2 ^ i)) := by
  unfold authenticateWithRetry
  obtain ⟨k, rfl⟩ : ∃ k, m = k + 1 := ⟨m - 1, by omega⟩
  rw [authRetryAux_allFail auth f base (k + 1) now hfail k 1 none
    (by omega) (by omega)]
  simp [authRetryFailMsg, hlast]

/-- Witness for C2 at `maxRetries = 3`, `baseRetryDelay = 2000`: three
attempts, delays 2s and 4s, and the wrapped final message. -/
theorem authenticateWithRetry_exhausts_witness :
    ((1 : Nat) ≤ 3 ∧ ("boom" : String) ≠ "") ∧
    authenticateWithRetry (fun _ => .error "boom") 3 2000 0 =
      (.error "Failed to authenticate after 3 attempts: boom", 3,
        [2000, 4000]) := by
  refine ⟨⟨by decide, by decide⟩, ?_⟩
  have h := authenticateWithRetry_exhausts (fun _ => .error "boom")
    (fun _ => "boom") 3 2000 0 (by decide) (fun _ => rfl) (by decide)
  rw [h]
  rfl

/- ============================================================ -/
/- C8: forceRefresh behaviour of getGeoSession                  -/
/- ============================================================ -/

/-- C8 counterexample to the claim as stated: `getGeoSession` with
`forceRefresh = true` and a failing authentication performs the
authentication call, yet the previously cached token is still in storage
afterwards — it was never removed before the call. -/
theorem getGeoSession_forceRefresh_counterexample :
    (getGeoSession ⟨some "old", some 100⟩ 0 true
      (.error "boom")).calledAuthenticate = true ∧
    (getGeoSession ⟨some "old", some 100⟩ 0 true
      (.error "boom")).cache.geoSession = some "old" ∧
    (getGeoSession ⟨some "old", some 100⟩ 0 true
      (.error "boom")).result = .error "boom" :=
  ⟨rfl, rfl, rfl⟩

/-- C8 (amended): `getGeoSession(credentials, true)` skips the cached-token
validity check and always authenticates, but does not clear the cache
first: the cache is replaced only by a successful authentication and is
left untouched by a failing one. (Clear-before-authenticate is instead
what `GeoSessionManager.refreshGeoSession` does: it clears the storage, so
the subsequent `getValidGeoSession` reads an empty store.) -/
theorem getGeoSession_forceRefresh (cache : TokenCache) (now : Int)
    (authResult : Except String String) :
    (getGeoSession cache now true authResult).calledAuthenticate = true ∧
    (∀ msg, authResult = .error msg →
      (getGeoSession cache now true authResult).cache = cache ∧
      (getGeoSession cache now true authResult).result = .error msg) ∧
    (∀ g, authResult = .ok g →
      (getGeoSession cache now true authResult).cache =
        ⟨some g, some (now + sessionLifetimeMs)⟩ ∧
      (getGeoSession cache now true authResult).result = .ok g) ∧
    (∀ stored auth m base,
      refreshGeoSession stored auth m base now =
        getValidGeoSession none auth m base now) := by
  have h : ∀ r : Except String String,
      (getGeoSession cache now true r).calledAuthenticate = true := by
    intro r; cases r <;> rfl
  refine ⟨h authResult, fun msg hm => ?_, fun g hg => ?_, fun _ _ _ _ => rfl⟩
  · subst hm; exact ⟨rfl, rfl⟩
  · subst hg; exact ⟨rfl, rfl⟩

/-- Witness for C8 at a concrete cache and a successful re-authentication. -/
theorem getGeoSession_forceRefresh_witness :
    (getGeoSession ⟨some "old", some 100⟩ 0 true
      (.ok "new")).calledAuthenticate = true ∧
    (getGeoSession ⟨some "old", some 100⟩ 0 true (.ok "new")).cache =
      ⟨some "new", some ((0 : Int) + sessionLifetimeMs)⟩ := by
  have h := getGeoSession_forceRefresh ⟨some "old", some 100⟩ 0 (.ok "new")
  exact ⟨h.1, (h.2.2.1 "new" rfl).1⟩

/- ============================================================ -/
/- C3: 401 recovery in authenticatedRequest                     -/
/- ============================================================ -/

/-- C3 counterexample to the claim as stated: a first dispatch returning
HTTP 401 with a non-empty body that is not parseable as JSON. The parse
failure is thrown before the 401 check, so `clearGeoSession` is never
called (`clears = 0`), although the claim requires the session to be
cleared; the retry with a forced refresh and the eventual success still
happen. -/
theorem authenticatedRequest_auth401_counterexample :
    (authenticatedRequest [] true 3 1000 (fun _ => .ok "t")
        (fun n => if n = 0 then .ok ⟨401, "Unauthorized", "oops", none⟩
          else .ok ⟨200, "OK", "body",
            some (.obj [("data", .obj [("ok", .bool true)])])⟩)).clears = 0 ∧
    (authenticatedRequest [] true 3 1000 (fun _ => .ok "t")
        (fun n => if n = 0 then .ok ⟨401, "Unauthorized", "oops", none⟩
          else .ok ⟨200, "OK", "body",
            some (.obj [("data", .obj [("ok", .bool true)])])⟩)).result =
      .ok (.payload (.obj [("data", .obj [("ok", .bool true)])])) :=
  ⟨rfl, rfl⟩

/-- C3 (amended): for every non-label `authenticatedRequest` call with
retry enabled and `retryAttempts ≥ 2` whose first dispatch returns HTTP
401 with a body that is empty or parseable as JSON, the pipeline clears
the cached session, waits `RETRY_DELAY * 1`, retries with a forced token
refresh, and, when the second dispatch succeeds, returns that attempt's
payload without surfacing any error. -/
theorem authenticatedRequest_auth401_recovery
    (headers : List (String × String)) (rA rd : Nat)
    (sess : Nat → Except String String) (disp : Nat → Except String Resp)
    (resp0 resp1 : Resp) (data0 data1 : JsonVal) (t0 t1 : String)
    (hlab : isLabelRequest headers = false)
    (hrA : 2 ≤ rA)
    (hs0 : sess 0 = .ok t0) (hd0 : disp 0 = .ok resp0)
    (h401 : resp0.status = 401)
    (hp0 : parseMain resp0 = some data0)
    (hs1 : sess 1 = .ok t1) (hd1 : disp 1 = .ok resp1)
    (hok1 : resp1.ok = true)
    (hp1 : parseMain resp1 = some data1)
    (hsucc : (hasErrorB data1 && !hasDataB data1) = false) :
    authenticatedRequest headers true rA rd sess disp =
      { result := .ok (.payload data1), dispatches := 2,
        sessionCalls := [false, true], clears := 1, delays := [rd * 1] } := by
  obtain ⟨k, rfl⟩ : ∃ k, rA = k + 2 := ⟨rA - 2, by omega⟩
  have hok0 : resp0.ok = false := by simp [Resp.ok, h401]
  have ha0 : runAttempt false true (k + 2) 0 (.ok t0) (disp 0) =
      .retryAuth := by
    rw [hd0]
    show classifyJson true (k + 2) 0 resp0 = .retryAuth
    simp only [classifyJson, hp0, hok0, h401]
    simp
  have ha1 : runAttempt false true (k + 2) 1 (.ok t1) (disp 1) =
      .success (.payload data1) := by
    rw [hd1]
    show classifyJson true (k + 2) 1 resp1 = .success (.payload data1)
    simp only [classifyJson, hp1, hok1, hsucc]
    simp
  unfold authenticatedRequest
  rw [hlab]
  simp only [runFrom, ha0, ha1, hs0, hs1]
  simp

/-- Witness for C3 at a concrete 401-then-success run (parseable 401
body). -/
theorem authenticatedRequest_auth401_recovery_witness :
    authenticatedRequest [] true 3 1000 (fun _ => .ok "t")
        (fun n => if n = 0 then .ok ⟨401, "Unauthorized", "null", some .null⟩
          else .ok ⟨200, "OK", "body1",
            some (.obj [("data", .obj [("ok", .bool true)])])⟩) =
      { result := .ok (.payload (.obj [("data", .obj [("ok", .bool true)])])),
        dispatches := 2, sessionCalls := [false, true], clears := 1,
        delays := [1000] } :=
  authenticatedRequest_auth401_recovery [] 3 1000 (fun _ => .ok "t")
    (fun n => if n = 0 then .ok ⟨401, "Unauthorized", "null", some .null⟩
      else .ok ⟨200, "OK", "body1",
        some (.obj [("data", .obj [("ok", .bool true)])])⟩)
    ⟨401, "Unauthorized", "null", some .null⟩
    ⟨200, "OK", "body1", some (.obj [("data", .obj [("ok", .bool true)])])⟩
    .null (.obj [("data", .obj [("ok", .bool true)])]) "t" "t"
    rfl (by decide) rfl rfl rfl rfl rfl rfl rfl rfl rfl

/- ============================================================ -/
/- C4: data-over-error precedence                               -/
/- ============================================================ -/

/-- C4 counterexample to the claim as stated: a body containing both an
error field and a non-empty data payload, delivered with a non-2xx HTTP
status. `!response.ok` puts the pipeline on the failure branch, so the call
raises (here with the error's message) instead of returning the data. -/
theorem authenticatedRequest_warning_counterexample :
    hasErrorB (.obj [("error", .obj [("errorMessage", .str "warn")]),
        ("data", .obj [("x", .num 1)])]) = true ∧
    hasDataB (.obj [("error", .obj [("errorMessage", .str "warn")]),
        ("data", .obj [("x", .num 1)])]) = true ∧
    (authenticatedRequest [] false 3 1000 (fun _ => .ok "t")
        (fun _ => .ok ⟨500, "Internal Server Error", "x",
          some (.obj [("error", .obj [("errorMessage", .str "warn")]),
            ("data", .obj [("x", .num 1)])])⟩)).result = .error "warn" :=
  ⟨rfl, rfl, rfl⟩

/-- C4 (amended): for every non-label response with a 2xx status whose
body contains both an error field and a non-empty data payload,
`authenticatedRequest` returns the parsed body (carrying the data) as a
success on the first attempt and does not raise: the presence of data
takes precedence over the presence of the error field. -/
theorem authenticatedRequest_warning_precedence
    (headers : List (String × String)) (retry : Bool) (rA rd : Nat)
    (sess : Nat → Except String String) (disp : Nat → Except String Resp)
    (resp : Resp) (data : JsonVal) (t0 : String)
    (hlab : isLabelRequest headers = false)
    (hrA : 1 ≤ rA)
    (hs0 : sess 0 = .ok t0) (hd0 : disp 0 = .ok resp)
    (hok : resp.ok = true)
    (hp : parseMain resp = some data)
    (herr : hasErrorB data = true)
    (hdat : hasDataB data = true) :
    (authenticatedRequest headers retry rA rd sess disp).result =
      .ok (.payload data) ∧
    (authenticatedRequest headers retry rA rd sess disp).dispatches = 1 := by
  obtain ⟨k, rfl⟩ : ∃ k, rA = k + 1 := ⟨rA - 1, by omega⟩
  have ha0 : runAttempt false retry (k + 1) 0 (.ok t0) (disp 0) =
      .success (.payload data) := by
    rw [hd0]
    show classifyJson retry (k + 1) 0 resp = .success (.payload data)
    simp only [classifyJson, hp, hok, herr, hdat]
    simp
  unfold authenticatedRequest
  rw [hlab]
  simp only [runFrom, hs0, ha0]
  simp

/-- Witness for C4 at a concrete 200-status response carrying both an
error and a non-empty data object. -/
theorem authenticatedRequest_warning_precedence_witness :
    (authenticatedRequest [] true 3 1000 (fun _ => .ok "t")
        (fun _ => .ok ⟨200, "OK", "x",
          some (.obj [("error", .obj [("errorMessage", .str "warn")]),
            ("data", .obj [("x", .num 1)])])⟩)).result =
      .ok (.payload (.obj [("error", .obj [("errorMessage", .str "warn")]),
        ("data", .obj [("x", .num 1)])])) ∧
    (authenticatedRequest [] true 3 1000 (fun _ => .ok "t")
        (fun _ => .ok ⟨200, "OK", "x",
          some (.obj [("error", .obj [("errorMessage", .str "warn")]),
            ("data", .obj [("x", .num 1)])])⟩)).dispatches = 1 :=
  authenticatedRequest_warning_precedence [] true 3 1000 (fun _ => .ok "t")
    (fun _ => .ok ⟨200, "OK", "x",
      some (.obj [("error", .obj [("errorMessage", .str "warn")]),
        ("data", .obj [("x", .num 1)])])⟩)
    ⟨200, "OK", "x",
      some (.obj [("error", .obj [("errorMessage", .str "warn")]),
        ("data", .obj [("x", .num 1)])])⟩
    (.obj [("error", .obj [("errorMessage", .str "warn")]),
      ("data", .obj [("x", .num 1)])]) "t"
    rfl (by decide) rfl rfl rfl rfl rfl rfl

/- ============================================================ -/
/- C5: label passthrough                                        -/
/- ============================================================ -/

/-- C5: for every call whose `Accept` header selects one of the four label
formats and whose first dispatch returns a 2xx response with a body that
is not parseable as JSON, `authenticatedRequest` returns the raw response
text unmodified, on the first attempt. -/
theorem authenticatedRequest_label_passthrough
    (headers : List (String × String)) (a : String) (retry : Bool)
    (rA rd : Nat) (sess : Nat → Except String String)
    (disp : Nat → Except String Resp) (resp : Resp) (t0 : String)
    (hacc : acceptHeaderOf headers = some a)
    (hmem : a ∈ labelAcceptValues)
    (hrA : 1 ≤ rA)
    (hs0 : sess 0 = .ok t0) (hd0 : disp 0 = .ok resp)
    (hok : resp.ok = true)
    (hparse : resp.parsedJson = none) :
    (authenticatedRequest headers retry rA rd sess disp).result =
      .ok (.text resp.raw) ∧
    (authenticatedRequest headers retry rA rd sess disp).dispatches = 1 := by
  obtain ⟨k, rfl⟩ : ∃ k, rA = k + 1 := ⟨rA - 1, by omega⟩
  have hlab : isLabelRequest headers = true := by
    simp only [isLabelRequest, hacc]
    exact List.elem_eq_true_of_mem hmem
  have ha0 : runAttempt true retry (k + 1) 0 (.ok t0) (disp 0) =
      .success (.text resp.raw) := by
    rw [hd0]
    show labelClassify resp = .success (.text resp.raw)
    simp [labelClassify, hok, parseLabel, hparse]
  unfold authenticatedRequest
  rw [hlab]
  simp only [runFrom, hs0, ha0]
  simp

/-- Witness for C5 at a ZPL label request returning plain label text. -/
theorem authenticatedRequest_label_passthrough_witness :
    (authenticatedRequest [("Accept", "text/vnd.zebra-zpl")] true 3 1000
        (fun _ => .ok "t")
        (fun _ => .ok ⟨200, "OK", "^XA^FDhello^FS^XZ", none⟩)).result =
      .ok (.text "^XA^FDhello^FS^XZ") ∧
    (authenticatedRequest [("Accept", "text/vnd.zebra-zpl")] true 3 1000
        (fun _ => .ok "t")
        (fun _ => .ok ⟨200, "OK", "^XA^FDhello^FS^XZ", none⟩)).dispatches =
      1 :=
  authenticatedRequest_label_passthrough [("Accept", "text/vnd.zebra-zpl")]
    "text/vnd.zebra-zpl" true 3 1000 (fun _ => .ok "t")
    (fun _ => .ok ⟨200, "OK", "^XA^FDhello^FS^XZ", none⟩)
    ⟨200, "OK", "^XA^FDhello^FS^XZ", none⟩ "t"
    rfl (by decide) (by decide) rfl rfl rfl rfl

/- ============================================================ -/
/- C6: propagation of terminal failures                         -/
/- ============================================================ -/

/-- C6 counterexample to the claim as stated: a first attempt that is a
terminal failure (HTTP 500, error object, no data) with retry enabled and
attempts remaining. The claim requires an immediate raise with no further
attempts; the code instead waits and retries, and the call succeeds on the
second dispatch after two dispatches in total. -/
theorem authenticatedRequest_terminal_counterexample :
    (authenticatedRequest [] true 3 1000 (fun _ => .ok "t")
        (fun n => if n = 0
          then .ok ⟨500, "ISE", "x",
            some (.obj [("error", .obj [("errorMessage", .str "bad")])])⟩
          else .ok ⟨200, "OK", "y",
            some (.obj [("data", .obj [("ok", .bool true)])])⟩)).result =
      .ok (.payload (.obj [("data", .obj [("ok", .bool true)])])) ∧
    (authenticatedRequest [] true 3 1000 (fun _ => .ok "t")
        (fun n => if n = 0
          then .ok ⟨500, "ISE", "x",
            some (.obj [("error", .obj [("errorMessage", .str "bad")])])⟩
          else .ok ⟨200, "OK", "y",
            some (.obj [("data", .obj [("ok", .bool true)])])⟩)).dispatches =
      2 :=
  ⟨rfl, rfl⟩

/-- C6 (amended): a terminal failure (non-401 failure classification) is
raised to the caller unmodified only when retrying is disabled or the
failing attempt is the last one; otherwise the thrown error is caught, the
pipeline waits `RETRY_DELAY * (attempt+1)`, and the loop continues with
the next attempt — terminal failures consume retry attempts just like the
recoverable 401 case. -/
theorem authenticatedRequest_terminal_raise
    (headers : List (String × String)) (rA rd : Nat)
    (sess : Nat → Except String String) (disp : Nat → Except String Resp)
    (resp : Resp) (data : JsonVal) (t0 : String)
    (hlab : isLabelRequest headers = false)
    (hrA : 1 ≤ rA)
    (hs0 : sess 0 = .ok t0) (hd0 : disp 0 = .ok resp)
    (hp : parseMain resp = some data)
    (hterm : (!resp.ok || (hasErrorB data && !hasDataB data)) = true) :
    ((authenticatedRequest headers false rA rd sess disp).result =
        .error (terminalMessage data resp.statusText) ∧
      (authenticatedRequest headers false rA rd sess disp).dispatches = 1) ∧
    (2 ≤ rA → resp.status ≠ 401 →
      authenticatedRequest headers true rA rd sess disp =
        { result := (runFrom false true rA rd sess disp 1 (rA - 1)
              (some (terminalMessage data resp.statusText))).result,
          dispatches := 1 + (runFrom false true rA rd sess disp 1 (rA - 1)
              (some (terminalMessage data resp.statusText))).dispatches,
          sessionCalls := false :: (runFrom false true rA rd sess disp 1
              (rA - 1)
              (some (terminalMessage data resp.statusText))).sessionCalls,
          clears := (runFrom false true rA rd sess disp 1 (rA - 1)
              (some (terminalMessage data resp.statusText))).clears,
          delays := rd * 1 :: (runFrom false true rA rd sess disp 1 (rA - 1)
              (some (terminalMessage data resp.statusText))).delays }) := by
  constructor
  · obtain ⟨k, hk⟩ : ∃ k, rA = k + 1 := ⟨rA - 1, by omega⟩
    subst hk
    have ha0 : runAttempt false false (k + 1) 0 (.ok t0) (disp 0) =
        .thrown (terminalMessage data resp.statusText) := by
      rw [hd0]
      show classifyJson false (k + 1) 0 resp =
        .thrown (terminalMessage data resp.statusText)
      simp [classifyJson, hp, hterm]
    unfold authenticatedRequest
    rw [hlab]
    simp only [runFrom, hs0, ha0]
    simp
  · intro hrA2 hneq
    obtain ⟨k, hk⟩ : ∃ k, rA = k + 2 := ⟨rA - 2, by omega⟩
    subst hk
    have ha0 : runAttempt false true (k + 2) 0 (.ok t0) (disp 0) =
        .thrown (terminalMessage data resp.statusText) := by
      rw [hd0]
      show classifyJson true (k + 2) 0 resp =
        .thrown (terminalMessage data resp.statusText)
      simp [classifyJson, hp, hterm, hneq]
    unfold authenticatedRequest
    rw [hlab]
    simp only [runFrom, hs0, ha0]
    simp

/-- Witness for C6 at a concrete terminal 500 response: with retry off the
error is raised at once; with retry on the same failure is retried and the
call still exhausts all three attempts. -/
theorem authenticatedRequest_terminal_raise_witness :
    (authenticatedRequest [] false 3 1000 (fun _ => .ok "t")
        (fun _ => .ok ⟨500, "ISE", "x",
          some (.obj [("error",
            .obj [("errorMessage", .str "bad")])])⟩)).result =
      .error "bad" ∧
    (authenticatedRequest [] false 3 1000 (fun _ => .ok "t")
        (fun _ => .ok ⟨500, "ISE", "x",
          some (.obj [("error",
            .obj [("errorMessage", .str "bad")])])⟩)).dispatches = 1 ∧
    authenticatedRequest [] true 3 1000 (fun _ => .ok "t")
        (fun _ => .ok ⟨500, "ISE", "x",
          some (.obj [("error",
            .obj [("errorMessage", .str "bad")])])⟩) =
      { result := .error "bad", dispatches := 3,
        sessionCalls := [false, true, true], clears := 0,
        delays := [1000, 2000] } := by
  have h := authenticatedRequest_terminal_raise [] 3 1000 (fun _ => .ok "t")
    (fun _ => .ok ⟨500, "ISE", "x",
      some (.obj [("error", .obj [("errorMessage", .str "bad")])])⟩)
    ⟨500, "ISE", "x",
      some (.obj [("error", .obj [("errorMessage", .str "bad")])])⟩
    (.obj [("error", .obj [("errorMessage", .str "bad")])]) "t"
    rfl (by decide) rfl rfl rfl rfl
  exact ⟨h.1.1.trans rfl, h.1.2, (h.2 (by decide) (by decide)).trans rfl⟩

/- ============================================================ -/
/- C7: terminal-failure message priority                        -/
/- ============================================================ -/

/-- C7: when `authenticatedRequest` raises on a terminal JSON failure, the
raised message follows the priority `errorMessage`, then `errorAction`,
then `obj`, then the serialized error object, then the HTTP status text;
in particular, with both `errorMessage` and `errorAction` present the
message equals `errorMessage`. -/
theorem authenticatedRequest_message_priority
    (headers : List (String × String)) (rA rd : Nat)
    (sess : Nat → Except String String) (disp : Nat → Except String Resp)
    (resp : Resp) (data : JsonVal) (t0 : String)
    (hlab : isLabelRequest headers = false)
    (hrA : 1 ≤ rA)
    (hs0 : sess 0 = .ok t0) (hd0 : disp 0 = .ok resp)
    (hp : parseMain resp = some data)
    (hterm : (!resp.ok || (hasErrorB data && !hasDataB data)) = true) :
    ((authenticatedRequest headers false rA rd sess disp).result =
      .error (match jsGetField data "error" with
        | some e =>
          match (getNonNull e "errorMessage").orElse (fun _ =>
              (getNonNull e "errorAction").orElse (fun _ =>
                getNonNull e "obj")) with
          | some v => jsToMessage v
          | none => jsonStringify e
        | none => "Request failed: " ++ resp.statusText)) ∧
    (∀ e msg act, jsGetField data "error" = some e →
      getNonNull e "errorMessage" = some (.str msg) →
      getNonNull e "errorAction" = some act →
      (authenticatedRequest headers false rA rd sess disp).result =
        .error msg) := by
  obtain ⟨k, hk⟩ : ∃ k, rA = k + 1 := ⟨rA - 1, by omega⟩
  subst hk
  have ha0 : runAttempt false false (k + 1) 0 (.ok t0) (disp 0) =
      .thrown (terminalMessage data resp.statusText) := by
    rw [hd0]
    show classifyJson false (k + 1) 0 resp =
      .thrown (terminalMessage data resp.statusText)
    simp [classifyJson, hp, hterm]
  have hres : (authenticatedRequest headers false (k + 1) rd sess
      disp).result = .error (terminalMessage data resp.statusText) := by
    unfold authenticatedRequest
    rw [hlab]
    simp only [runFrom, hs0, ha0]
    simp
  constructor
  · rw [hres]
    congr 1
    unfold terminalMessage
    cases herr : jsGetField data "error" with
    | none => simp [herr]
    | some e => simp [herr]
  · intro e msg act he hm hb
    rw [hres]
    unfold terminalMessage
    simp [he, hm, jsToMessage]

/-- Witness for C7 at an error object carrying both `errorMessage` and
`errorAction`: the raised message is the `errorMessage`. -/
theorem authenticatedRequest_message_priority_witness :
    (authenticatedRequest [] false 3 1000 (fun _ => .ok "t")
        (fun _ => .ok ⟨500, "ISE", "x",
          some (.obj [("error", .obj [("errorMessage", .str "m1"),
            ("errorAction", .str "a1")])])⟩)).result = .error "m1" :=
  (authenticatedRequest_message_priority [] 3 1000 (fun _ => .ok "t")
    (fun _ => .ok ⟨500, "ISE", "x",
      some (.obj [("error", .obj [("errorMessage", .str "m1"),
        ("errorAction", .str "a1")])])⟩)
    ⟨500, "ISE", "x",
      some (.obj [("error", .obj [("errorMessage", .str "m1"),
        ("errorAction", .str "a1")])])⟩
    (.obj [("error", .obj [("errorMessage", .str "m1"),
      ("errorAction", .str "a1")])]) "t"
    rfl (by decide) rfl rfl rfl rfl).2
    (.obj [("errorMessage", .str "m1"), ("errorAction", .str "a1")])
    "m1" (.str "a1") rfl rfl rfl

/- ============================================================ -/
/- C9: request-pipeline retry delays                            -/
/- ============================================================ -/

/-- C9 counterexample to the claim as stated: with `retryAttempts = 4` and
every attempt failing terminally, the waits between attempts are
`1000, 2000, 3000` ms — linear in the attempt number — whereas the claimed
exponential rule `RETRY_DELAY * 2^k` would give `1000, 2000, 4000`. -/
theorem authenticatedRequest_backoff_counterexample :
    (authenticatedRequest [] true 4 1000 (fun _ => .ok "t")
        (fun _ => .ok ⟨500, "ISE", "x",
          some (.obj [("error", .str "e")])⟩)).delays =
      [1000, 2000, 3000] ∧
    [1000, 2000, 3000] ≠ (List.range 3).map (fun k => 1000 * 2 ^ k) :=
  ⟨rfl, by decide⟩

/-- One retried thrown attempt: the pipeline waits
`retryDelay * (attempt + 1)` and continues with the next attempt. -/
theorem runFrom_step_thrown (labelReq : Bool) (rA rd : Nat)
    (sess : Nat → Except String String) (disp : Nat → Except String Resp)
    (attempt fuel : Nat) (lastE : Option String) (msg : String)
    (h : runAttempt labelReq true rA attempt (sess attempt) (disp attempt) =
      .thrown msg)
    (hlast : decide (rA - 1 ≤ attempt) = false) :
    runFrom labelReq true rA rd sess disp attempt (fuel + 1) lastE =
      { result := (runFrom labelReq true rA rd sess disp (attempt + 1) fuel
          (some msg)).result,
        dispatches := (match sess attempt with
          | .ok _ => 1
          | .error _ => 0) + (runFrom labelReq true rA rd sess disp
            (attempt + 1) fuel (some msg)).dispatches,
        sessionCalls := decide (0 < attempt) ::
          (runFrom labelReq true rA rd sess disp (attempt + 1) fuel
            (some msg)).sessionCalls,
        clears := (runFrom labelReq true rA rd sess disp (attempt + 1) fuel
          (some msg)).clears,
        delays := rd * (attempt + 1) ::
          (runFrom labelReq true rA rd sess disp (attempt + 1) fuel
            (some msg)).delays } := by
  simp only [runFrom, h, hlast]
  simp

/-- The head of a linear delay sequence folded into a shifted range map. -/
theorem linear_range_shift (rd a k : Nat) :
    rd * (a + 1) :: (List.range k).map (fun i => rd * (a + 1 + 1 + i)) =
      (List.range (k + 1)).map (fun i => rd * (a + 1 + i)) := by
  rw [List.range_succ_eq_map, List.map_cons, List.map_map]
  refine congrArg₂ List.cons ?_ ?_
  · norm_num
  · refine congrArg (fun f => List.map f (List.range k)) ?_
    funext i
    simp only [Function.comp]
    congr 1
    omega

/-- When the session is always obtained and every dispatch throws, the
non-label pipeline with retry on makes one dispatch per remaining attempt,
waits `retryDelay * (attempt + 1)` between consecutive attempts, and ends
with the last thrown error. -/
theorem runFrom_allThrown (sess : Nat → Except String String)
    (disp : Nat → Except String Resp) (t f : Nat → String) (n rd : Nat)
    (hsess : ∀ i, sess i = .ok (t i))
    (hdisp : ∀ i, disp i = .error (f i)) :
    ∀ (k a : Nat) (lastE : Option String), a + (k + 1) = n →
      (runFrom false true n rd sess disp a (k + 1) lastE).result =
        .error (f (n - 1)) ∧
      (runFrom false true n rd sess disp a (k + 1) lastE).dispatches =
        k + 1 ∧
      (runFrom false true n rd sess disp a (k + 1) lastE).delays =
        (List.range k).map (fun i => rd * (a + 1 + i)) := by
  intro k
  induction k with
  | zero =>
    intro a lastE ham
    have hco : decide (n - 1 ≤ a) = true := by
      simp only [decide_eq_true_eq]
      omega
    have hna : n - 1 = a := by omega
    have hatt : runAttempt false true n a (.ok (t a)) (disp a) =
        .thrown (f a) := by
      rw [hdisp a]; rfl
    simp only [runFrom, hsess, hatt, hco]
    simp [hna]
  | succ k ih =>
    intro a lastE ham
    have hco : decide (n - 1 ≤ a) = false := by
      simp only [decide_eq_false_iff_not]
      omega
    have hatt : runAttempt false true n a (sess a) (disp a) =
        .thrown (f a) := by
      rw [hsess a, hdisp a]; rfl
    obtain ⟨ih1, ih2, ih3⟩ := ih (a + 1) (some (f a)) (by omega)
    rw [runFrom_step_thrown false n rd sess disp a (k + 1) lastE (f a)
      hatt hco]
    refine ⟨ih1, ?_, ?_⟩
    · simp only [hsess, ih2]
      omega
    · simp only [ih3]
      exact linear_range_shift rd a k

/-- C9 (amended): the request pipeline's retry delays grow linearly, not
exponentially: when every attempt fails and is retried, the wait after
failed attempt `k` is `RETRY_DELAY * (k + 1)` (1s, 2s, 3s, ... at the
default base delay), and the last error is raised after `retryAttempts`
dispatches. -/
theorem authenticatedRequest_retryDelays_linear
    (headers : List (String × String)) (rA rd : Nat)
    (sess : Nat → Except String String) (disp : Nat → Except String Resp)
    (t f : Nat → String)
    (hlab : isLabelRequest headers = false)
    (hrA : 1 ≤ rA)
    (hsess : ∀ i, sess i = .ok (t i))
    (hdisp : ∀ i, disp i = .error (f i)) :
    (authenticatedRequest headers true rA rd sess disp).result =
      .error (f (rA - 1)) ∧
    (authenticatedRequest headers true rA rd sess disp).dispatches = rA ∧
    (authenticatedRequest headers true rA rd sess disp).delays =
      (List.range (rA - 1)).map (fun i => rd * (i + 1)) := by
  obtain ⟨k, hk⟩ : ∃ k, rA = k + 1 := ⟨rA - 1, by omega⟩
  subst hk
  obtain ⟨h1, h2, h3⟩ := runFrom_allThrown sess disp t f (k + 1) rd hsess
    hdisp k 0 none (by omega)
  unfold authenticatedRequest
  rw [hlab]
  refine ⟨h1, h2, ?_⟩
  rw [h3]
  simp only [Nat.add_sub_cancel]
  refine congrArg (fun g => List.map g (List.range k)) ?_
  funext i
  congr 1
  omega

/-- Witness for C9 at `retryAttempts = 3`, `RETRY_DELAY = 1000` and an
always-failing transport: delays 1s then 2s. -/
theorem authenticatedRequest_retryDelays_linear_witness :
    (authenticatedRequest [] true 3 1000 (fun _ => .ok "t")
        (fun _ => .error "netdown")).result = .error "netdown" ∧
    (authenticatedRequest [] true 3 1000 (fun _ => .ok "t")
        (fun _ => .error "netdown")).dispatches = 3 ∧
    (authenticatedRequest [] true 3 1000 (fun _ => .ok "t")
        (fun _ => .error "netdown")).delays = [1000, 2000] := by
  have h := authenticatedRequest_retryDelays_linear [] 3 1000
    (fun _ => .ok "t") (fun _ => .error "netdown")
    (fun _ => "t") (fun _ => "netdown") rfl (by decide)
    (fun _ => rfl) (fun _ => rfl)
  exact ⟨h.1.trans rfl, h.2.1, h.2.2.trans rfl⟩
